import Mathlib

/-!
Shallow embedding of the dynamixel-rs packet codec, register table and bus
transport (src/packets.rs, src/ax12.rs, src/bus.rs), together with theorems
settling the specification claims about them.

Bytes are modelled as natural numbers; where the Rust code performs u8
arithmetic that can overflow, the embedding applies the explicit wrap
modulo 256 (Rust release-mode wrapping semantics).  Buffers are lists of
naturals; Rust indexing of the form buf[i] on indices the code has already
bounds-checked is modelled with List.getD.  Fallible operations return
Except or Option; a Rust panic is modelled as Option.none.
-/

set_option maxRecDepth 10000

namespace Packets

/-- Codec error type, from the Error enum in src/packets.rs. -/
inductive Error where
  | PacketTooShort
  | MalformedPacket
  | InvalidCrc
deriving DecidableEq, Repr

/-- Request packets, from the Request enum in src/packets.rs. -/
inductive Request where
  | Ping (id : Nat)
  | Read (id : Nat) (addr : Nat) (len : Nat)
  | Write (id : Nat) (addr : Nat) (data : List Nat)
deriving DecidableEq, Repr

/-- Status packets, from the Status struct in src/packets.rs. -/
structure Status where
  id : Nat
  error : Nat
  data : List Nat
deriving DecidableEq, Repr

/-- crc_data from src/packets.rs: wrapping u8 sum of all bytes, then
bitwise complement (for a value below 256 the complement is 255 minus it). -/
def crc_data (data : List Nat) : Nat :=
  255 - data.foldl (fun sum b => (sum + b) % 256) 0

/-- crc from src/packets.rs: crc_data over the slice from index 2 on. -/
def crc (serialized : List Nat) : Nat :=
  crc_data (serialized.drop 2)

/-- Status.extract_declared_length from src/packets.rs.  The Rust source
computes serialized[3] + 4 in u8 arithmetic, which wraps modulo 256 when
the length byte is 252 or more. -/
def Status.extract_declared_length (serialized : List Nat) : Option Nat :=
  if serialized.length < 6 then
    none
  else
    some ((serialized.getD 3 0 + 4) % 256)

/-- Status.is_constructible_from, from src/packets.rs. -/
def Status.is_constructible_from (serialized : List Nat) : Bool :=
  match Status.extract_declared_length serialized with
  | some declared_len => serialized.length == declared_len
  | none => false

/-- Status.from_bytes from src/packets.rs.  The early returns of the Rust
source become nested conditionals with the same semantics. -/
def Status.from_bytes (serialized : List Nat) : Except Error Status :=
  if Status.is_constructible_from serialized then
    let len := serialized.length
    let actual_crc := crc (serialized.take (len - 1))
    let declared_crc := serialized.getD (len - 1) 0
    if declared_crc = actual_crc then
      let d := if len > 4 then (serialized.take (len - 1)).drop 5 else []
      Except.ok { id := serialized.getD 2 0, error := serialized.getD 4 0, data := d }
    else
      Except.error Error.InvalidCrc
  else
    Except.error Error.PacketTooShort

/-- Request.id_byte from src/packets.rs. -/
def Request.id_byte : Request → Nat
  | Request.Ping id => id
  | Request.Read id _ _ => id
  | Request.Write id _ _ => id

/-- Request.instruction_byte from src/packets.rs. -/
def Request.instruction_byte : Request → Nat
  | Request.Ping _ => 0x01
  | Request.Read _ _ _ => 0x02
  | Request.Write _ _ _ => 0x03

/-- Request.len_byte from src/packets.rs.  The Rust source computes
(data.len() + 3) as u8 for Write, truncating modulo 256. -/
def Request.len_byte : Request → Nat
  | Request.Ping _ => 2
  | Request.Read _ _ _ => 4
  | Request.Write _ _ data => (data.length + 3) % 256

/-- Request.serialized from src/packets.rs. -/
def Request.serialized (r : Request) : List Nat :=
  let v := [0xff, 0xff, r.id_byte, r.len_byte, r.instruction_byte] ++
    (match r with
     | Request.Write _ addr data => addr :: data
     | Request.Read _ addr len => [addr, len]
     | Request.Ping _ => [])
  v ++ [crc v]

/-! Helper lemmas about the codec. -/

theorem crc_data_foldl (data : List Nat) (a : Nat) :
    data.foldl (fun sum b => (sum + b) % 256) (a % 256) = (a + data.sum) % 256 := by
  induction data generalizing a with
  | nil => simp
  | cons b bs ih =>
    simp only [List.foldl_cons, List.sum_cons]
    rw [Nat.mod_add_mod, ih (a + b), Nat.add_assoc]

theorem crc_data_eq_sum (data : List Nat) :
    crc_data data = 255 - data.sum % 256 := by
  unfold crc_data
  have h : data.foldl (fun sum b => (sum + b) % 256) (0 % 256) = (0 + data.sum) % 256 :=
    crc_data_foldl data 0
  simp only [Nat.zero_mod, Nat.zero_add] at h
  rw [h]

theorem is_constructible_iff (buf : List Nat) :
    Status.is_constructible_from buf = true ↔
      6 ≤ buf.length ∧ buf.length = (buf.getD 3 0 + 4) % 256 := by
  unfold Status.is_constructible_from Status.extract_declared_length
  by_cases h : buf.length < 6
  · simp [h]
  · simp [h]
    omega

theorem serialized_ping (id : Nat) :
    (Request.Ping id).serialized = [0xff, 0xff, id, 2, 1, crc_data [id, 2, 1]] := by
  simp [Request.serialized, Request.id_byte, Request.len_byte, Request.instruction_byte, crc]

theorem serialized_read (id addr len : Nat) :
    (Request.Read id addr len).serialized =
      [0xff, 0xff, id, 4, 2, addr, len, crc_data [id, 4, 2, addr, len]] := by
  simp [Request.serialized, Request.id_byte, Request.len_byte, Request.instruction_byte, crc]

theorem serialized_write (id addr : Nat) (data : List Nat) :
    (Request.Write id addr data).serialized =
      [0xff, 0xff, id, (data.length + 3) % 256, 3, addr] ++ data ++
        [crc_data ([id, (data.length + 3) % 256, 3, addr] ++ data)] := by
  simp [Request.serialized, Request.id_byte, Request.len_byte, Request.instruction_byte, crc]

theorem getD_lt_of_all (l : List Nat) (n : Nat) (h : n < l.length)
    (hb : ∀ b ∈ l, b < 256) : l.getD n 0 < 256 := by
  rw [List.getD_eq_getElem _ _ h]
  exact hb _ (List.getElem_mem h)

theorem from_bytes_of_constructible (buf : List Nat)
    (h : Status.is_constructible_from buf = true) :
    Status.from_bytes buf =
      if buf.getD (buf.length - 1) 0 = crc (buf.take (buf.length - 1)) then
        Except.ok { id := buf.getD 2 0, error := buf.getD 4 0,
                    data := (buf.take (buf.length - 1)).drop 5 }
      else
        Except.error Error.InvalidCrc := by
  have h6 : 6 ≤ buf.length := ((is_constructible_iff buf).mp h).1
  have h4 : buf.length > 4 := by omega
  simp only [Status.from_bytes, h, if_true, h4]

theorem serialized_is_append_crc (r : Request) :
    ∃ v, r.serialized = v ++ [crc v] := by
  cases r <;> exact ⟨_, rfl⟩

theorem last_getD_append (v : List Nat) (x : Nat) :
    (v ++ [x]).getD ((v ++ [x]).length - 1) 0 = x := by
  have hlen : (v ++ [x]).length - 1 = v.length := by simp
  rw [hlen, List.getD_append_right _ _ _ _ (Nat.le_refl _)]
  simp

theorem take_pred_append (v : List Nat) (x : Nat) :
    (v ++ [x]).take ((v ++ [x]).length - 1) = v := by
  have hlen : (v ++ [x]).length - 1 = v.length := by simp
  rw [hlen, List.take_left]

end Packets

open Packets

/-- C1: for every byte buffer that is structurally complete (in the sense of
the Status.is_constructible_from predicate, whose length arithmetic is settled
by C4) and whose final byte equals the checksum of bytes 2 through the
second-to-last, Status.from_bytes succeeds with id = buffer[2],
error = buffer[4] and data = buffer[5 .. length-1]; the data length equals the
declared length byte minus 2, and data is empty exactly when the total length
is 6. -/
theorem c1_parse_success (buf : List Nat)
    (hbytes : ∀ b ∈ buf, b < 256)
    (hcomplete : Status.is_constructible_from buf = true)
    (hcrc : buf.getD (buf.length - 1) 0 = crc (buf.take (buf.length - 1))) :
    Status.from_bytes buf =
      Except.ok { id := buf.getD 2 0, error := buf.getD 4 0,
                  data := (buf.take (buf.length - 1)).drop 5 }
    ∧ ((buf.take (buf.length - 1)).drop 5).length = buf.getD 3 0 - 2
    ∧ ((buf.take (buf.length - 1)).drop 5 = [] ↔ buf.length = 6) := by
  obtain ⟨h6, hlen⟩ := (is_constructible_iff buf).mp hcomplete
  have hb3 : buf.getD 3 0 < 256 := getD_lt_of_all buf 3 (by omega) hbytes
  have hdatalen : ((buf.take (buf.length - 1)).drop 5).length = buf.length - 6 := by
    simp only [List.length_drop, List.length_take]
    omega
  refine ⟨?_, ?_, ?_⟩
  · rw [from_bytes_of_constructible buf hcomplete, if_pos hcrc]
  · rw [hdatalen]
    omega
  · rw [← List.length_eq_zero, hdatalen]
    omega

/-- C1 witness: parsing the specification example frame
[0xFF, 0xFF, 0x01, 0x06, 0x24, 0, 0, 0, 0, 0xD4] succeeds with id 0x01,
error 0x24 and data [0, 0, 0, 0]. -/
theorem c1_witness :
    Status.from_bytes [0xff, 0xff, 0x01, 0x06, 0x24, 0, 0, 0, 0, 0xd4] =
      Except.ok { id := 0x01, error := 0x24, data := [0, 0, 0, 0] } :=
  (c1_parse_success [0xff, 0xff, 0x01, 0x06, 0x24, 0, 0, 0, 0, 0xd4]
    (by decide) (by decide) (by decide)).1

/-- C2: Request.serialized is total and deterministic (it is a Lean function)
and produces the frame of two 0xFF markers, the id, the length byte, the
instruction byte (Ping 1, Read 2, Write 3), the variant body and a trailing
checksum; the three concrete frames of the specification come out exactly. -/
theorem c2_serialize_spec :
    (∀ id, (Request.Ping id).serialized =
      [0xff, 0xff, id, 2, 1] ++ [crc_data [id, 2, 1]])
    ∧ (∀ id addr len, (Request.Read id addr len).serialized =
      [0xff, 0xff, id, 4, 2] ++ [addr, len] ++ [crc_data [id, 4, 2, addr, len]])
    ∧ (∀ id addr data, (Request.Write id addr data).serialized =
      [0xff, 0xff, id, (data.length + 3) % 256, 3] ++ (addr :: data) ++
        [crc_data ([id, (data.length + 3) % 256, 3, addr] ++ data)])
    ∧ (Request.Ping 0x03).serialized = [0xff, 0xff, 0x03, 0x02, 0x01, 0xf9]
    ∧ (Request.Write 0xfe 0x03 [0x01]).serialized =
        [0xff, 0xff, 0xfe, 0x04, 0x03, 0x03, 0x01, 0xf6]
    ∧ (Request.Read 0x01 0x2b 0x01).serialized =
        [0xff, 0xff, 0x01, 0x04, 0x02, 0x2b, 0x01, 0xcc] := by
  refine ⟨?_, ?_, ?_, by decide, by decide, by decide⟩
  · intro id
    rw [serialized_ping]
    rfl
  · intro id addr len
    rw [serialized_read]
    rfl
  · intro id addr data
    rw [serialized_write]
    simp

/-- C3: Status.from_bytes fails with PacketTooShort exactly when the buffer is
not structurally complete (Status.is_constructible_from is false), fails with
InvalidCrc exactly when it is complete but the final byte differs from the
checksum of bytes 2 through the second-to-last, and never returns
MalformedPacket. -/
theorem c3_parse_error_taxonomy (buf : List Nat) :
    (Status.from_bytes buf = Except.error Error.PacketTooShort ↔
      Status.is_constructible_from buf = false)
    ∧ (Status.from_bytes buf = Except.error Error.InvalidCrc ↔
      (Status.is_constructible_from buf = true ∧
        buf.getD (buf.length - 1) 0 ≠ crc (buf.take (buf.length - 1))))
    ∧ Status.from_bytes buf ≠ Except.error Error.MalformedPacket := by
  by_cases hc : Status.is_constructible_from buf = true
  · rw [from_bytes_of_constructible buf hc]
    by_cases hcrc : buf.getD (buf.length - 1) 0 = crc (buf.take (buf.length - 1))
    · rw [if_pos hcrc]
      exact ⟨iff_of_false (by simp) (by simp [hc]),
        iff_of_false (by simp) (fun h => h.2 hcrc),
        by simp⟩
    · rw [if_neg hcrc]
      exact ⟨iff_of_false (by simp) (by simp [hc]),
        iff_of_true rfl ⟨hc, hcrc⟩,
        by simp⟩
  · have hfalse : Status.is_constructible_from buf = false := by
      simpa using hc
    unfold Status.from_bytes
    rw [if_neg (by simp [hfalse])]
    simp [hfalse]

/-- C3 witness: a 3-byte buffer fails parsing with PacketTooShort, by the
first equivalence of the taxonomy. -/
theorem c3_witness :
    Status.from_bytes [0xff, 0xff, 0x01] = Except.error Error.PacketTooShort :=
  (c3_parse_error_taxonomy [0xff, 0xff, 0x01]).1.mpr (by decide)

/-- C4 counterexample: a 256-byte buffer whose length byte is 252 satisfies
the claim hypotheses (byte buffer, length at least 6, length equal to
buffer[3] + 4) yet Status.is_constructible_from rejects it, because the Rust
source adds buffer[3] + 4 in u8 arithmetic, which wraps to 0. -/
theorem c4_counterexample :
    (([255, 255, 1, 252] ++ List.replicate 252 0).all (fun b => b < 256) = true)
    ∧ 6 ≤ ([255, 255, 1, 252] ++ List.replicate 252 0).length
    ∧ ([255, 255, 1, 252] ++ List.replicate 252 0).length =
        ([255, 255, 1, 252] ++ List.replicate 252 0).getD 3 0 + 4
    ∧ Status.is_constructible_from ([255, 255, 1, 252] ++ List.replicate 252 0) = false := by
  decide

/-- C4 amended: is_constructible_from returns false for every buffer shorter
than 6 bytes, and for longer buffers returns true exactly when the length
equals (buffer[3] + 4) modulo 256 — the length-byte addition is performed in
one byte and wraps, so for length bytes up to 251 the claim holds as stated,
while for 252 and above completeness is judged against the wrapped value. -/
theorem c4_is_complete_amended (buf : List Nat) :
    (buf.length < 6 → Status.is_constructible_from buf = false)
    ∧ (6 ≤ buf.length →
      (Status.is_constructible_from buf = true ↔
        buf.length = (buf.getD 3 0 + 4) % 256))
    ∧ (6 ≤ buf.length → buf.getD 3 0 ≤ 251 →
      (Status.is_constructible_from buf = true ↔
        buf.length = buf.getD 3 0 + 4)) := by
  refine ⟨?_, ?_, ?_⟩
  · intro h
    rcases hb : Status.is_constructible_from buf with _ | _
    · rfl
    · exfalso
      have := ((is_constructible_iff buf).mp hb).1
      omega
  · intro h
    rw [is_constructible_iff]
    omega
  · intro h h251
    rw [is_constructible_iff]
    omega

/-- C4 witness: the amended completeness criterion applied to the six-byte
frame [0xFF, 0xFF, 0x01, 0x02, 0x24, 0xD8]. -/
theorem c4_witness :
    Status.is_constructible_from [0xff, 0xff, 0x01, 0x02, 0x24, 0xd8] = true :=
  ((c4_is_complete_amended [0xff, 0xff, 0x01, 0x02, 0x24, 0xd8]).2.1
    (by decide)).mpr (by decide)

/-- C5: crc_data is the bitwise complement of the wrapping modulo-256 sum of
its input; it maps [0x00] to 0xFF and [0x01, 0x01, 0x01] to 0xFC; every
serialized request carries as its final byte the crc_data of bytes 2 through
the second-to-last; and parsing a structurally complete buffer succeeds
exactly when the final byte equals the crc_data of the same range. -/
theorem c5_crc_spec :
    (∀ data : List Nat, crc_data data = 255 - data.sum % 256)
    ∧ crc_data [0x00] = 0xff
    ∧ crc_data [0x01, 0x01, 0x01] = 0xfc
    ∧ (∀ r : Request,
      (r.serialized).getD ((r.serialized).length - 1) 0 =
        crc_data (((r.serialized).take ((r.serialized).length - 1)).drop 2))
    ∧ (∀ buf : List Nat, Status.is_constructible_from buf = true →
      ((Status.from_bytes buf).isOk = true ↔
        buf.getD (buf.length - 1) 0 =
          crc_data ((buf.take (buf.length - 1)).drop 2))) := by
  refine ⟨crc_data_eq_sum, by decide, by decide, ?_, ?_⟩
  · intro r
    obtain ⟨v, hv⟩ := serialized_is_append_crc r
    rw [hv, last_getD_append, take_pred_append]
    rfl
  · intro buf hc
    rw [from_bytes_of_constructible buf hc]
    by_cases hcrc : buf.getD (buf.length - 1) 0 = crc (buf.take (buf.length - 1))
    · rw [if_pos hcrc]
      exact iff_of_true rfl hcrc
    · rw [if_neg hcrc]
      exact iff_of_false (by decide) hcrc

/-- C5 witness: the parse-side equivalence applied to the valid six-byte
frame, whose final byte 0xD8 is the crc_data of [0x01, 0x02, 0x24]. -/
theorem c5_witness :
    (Status.from_bytes [0xff, 0xff, 0x01, 0x02, 0x24, 0xd8]).isOk = true :=
  ((c5_crc_spec.2.2.2.2 [0xff, 0xff, 0x01, 0x02, 0x24, 0xd8]
    (by decide)).mpr (by decide))

/-- C6 counterexample: a Write with a 253-byte payload gets length byte 0,
not payload length + 3 = 256, because the Rust source computes
(data.len() + 3) as u8, truncating modulo 256; the frame is then not
self-describing. -/
theorem c6_counterexample :
    ((Request.Write 1 0 (List.replicate 253 0)).serialized).getD 3 0 = 0
    ∧ (Request.Write 1 0 (List.replicate 253 0)).serialized.length - 4 = 256
    ∧ ((Request.Write 1 0 (List.replicate 253 0)).serialized).getD 3 0 ≠ 253 + 3 := by
  decide

/-- C6 amended: the declared length byte is 2 for Ping, 4 for Read and
(payload length + 3) modulo 256 for Write — equal to payload length + 3
whenever the payload is at most 252 bytes — and in general it equals the
actual body length plus 2 reduced modulo 256 (frame length minus 4, wrapped),
so frames are self-describing whenever that quantity fits in one byte. -/
theorem c6_len_byte_amended :
    (∀ id, ((Request.Ping id).serialized).getD 3 0 = 2)
    ∧ (∀ id addr len, ((Request.Read id addr len).serialized).getD 3 0 = 4)
    ∧ (∀ id addr (data : List Nat),
      ((Request.Write id addr data).serialized).getD 3 0 = (data.length + 3) % 256)
    ∧ (∀ id addr (data : List Nat), data.length ≤ 252 →
      ((Request.Write id addr data).serialized).getD 3 0 = data.length + 3)
    ∧ (∀ r : Request,
      (r.serialized).getD 3 0 = ((r.serialized).length - 4) % 256) := by
  have hw : ∀ id addr (data : List Nat),
      ((Request.Write id addr data).serialized).getD 3 0 = (data.length + 3) % 256 := by
    intro id addr data
    rw [serialized_write]
    rfl
  refine ⟨?_, ?_, hw, ?_, ?_⟩
  · intro id
    rw [serialized_ping]
    rfl
  · intro id addr len
    rw [serialized_read]
    rfl
  · intro id addr data hlen
    rw [hw]
    exact Nat.mod_eq_of_lt (by omega)
  · intro r
    cases r with
    | Ping id =>
      rw [serialized_ping]
      rfl
    | Read id addr len =>
      rw [serialized_read]
      rfl
    | Write id addr data =>
      rw [hw, serialized_write]
      simp only [List.length_append, List.length_cons, List.length_nil]
      congr 1
      omega

/-- C6 witness: a Write with a one-byte payload has length byte 4. -/
theorem c6_witness :
    ((Request.Write 1 2 [5]).serialized).getD 3 0 = 4 :=
  c6_len_byte_amended.2.2.2.1 1 2 [5] (by decide)

/-- C7: for every id byte, error byte and data list of representable status
size (data length at most 249, so the whole frame length fits one byte after
the +4 of the length rule), building the status frame with the matching
length byte and trailing checksum and parsing it with Status.from_bytes
returns exactly that id, error and data. -/
theorem c7_roundtrip (id e : Nat) (data : List Nat)
    (_hid : id < 256) (_he : e < 256) (_hdata : ∀ b ∈ data, b < 256)
    (hlen : data.length ≤ 249) :
    Status.from_bytes
        (([0xff, 0xff, id, data.length + 2, e] ++ data) ++
          [crc ([0xff, 0xff, id, data.length + 2, e] ++ data)]) =
      Except.ok { id := id, error := e, data := data } := by
  set v : List Nat := [0xff, 0xff, id, data.length + 2, e] ++ data with hv
  have hvlen : v.length = data.length + 5 := by
    simp [hv]
  have hlen6 : (v ++ [crc v]).length = data.length + 6 := by
    simp [hvlen]
  have hgetD3 : (v ++ [crc v]).getD 3 0 = data.length + 2 := by
    rw [hv, List.append_assoc, List.getD_append _ _ _ _ (by simp)]
    rfl
  have hconstructible : Status.is_constructible_from (v ++ [crc v]) = true := by
    rw [is_constructible_iff, hlen6, hgetD3]
    constructor
    · omega
    · rw [Nat.mod_eq_of_lt (by omega)]
  rw [from_bytes_of_constructible _ hconstructible,
    if_pos (by rw [last_getD_append, take_pred_append])]
  rw [take_pred_append]
  have hid2 : (v ++ [crc v]).getD 2 0 = id := by
    rw [hv, List.append_assoc, List.getD_append _ _ _ _ (by simp)]
    rfl
  have he4 : (v ++ [crc v]).getD 4 0 = e := by
    rw [hv, List.append_assoc, List.getD_append _ _ _ _ (by simp)]
    rfl
  have hdrop : v.drop 5 = data := by
    rw [hv]
    rfl
  rw [hid2, he4, hdrop]

/-- C7 witness: the round-trip law applied to id 0x01, error 0x24 and data
[0, 0, 0, 0] reproduces the specification example frame ending in 0xD4. -/
theorem c7_witness :
    Status.from_bytes
        (([0xff, 0xff, 0x01, 0x06, 0x24] ++ [0, 0, 0, 0]) ++
          [crc ([0xff, 0xff, 0x01, 0x06, 0x24] ++ [0, 0, 0, 0])]) =
      Except.ok { id := 0x01, error := 0x24, data := [0, 0, 0, 0] } :=
  c7_roundtrip 0x01 0x24 [0, 0, 0, 0] (by decide) (by decide) (by decide) (by decide)

namespace Ax12

/-- Access mode, from the Access enum in src/ax12.rs. -/
inductive Access where
  | R
  | RW
deriving DecidableEq

/-- Register width, from the Size enum in src/ax12.rs. -/
inductive Size where
  | Byte
  | HalfWord
deriving DecidableEq

/-- Size.len from src/ax12.rs. -/
def Size.len : Size → Nat
  | Size.Byte => 1
  | Size.HalfWord => 2

/-- RegisterInfo struct from src/ax12.rs. -/
structure RegisterInfo where
  description : String
  access : Access
  address : Nat
  size : Size
deriving DecidableEq

/-- Register enum from src/ax12.rs, 32 variants in declaration order. -/
inductive Register where
  | ModelNumber
  | FirmwareVersion
  | Id
  | BaudRate
  | ReturnDelayTime
  | CWAngleLimit
  | CCWAngleLimit
  | TemperatureLimit
  | VoltageLimitLow
  | VoltageLimitHigh
  | MaxLoad
  | StatusReturnLevel
  | AlarmLed
  | AlarmShutdown
  | TorqueEnable
  | LedEnable
  | CwComplianceMargin
  | CcwComplianceMargin
  | CwComplianceSlope
  | CcwComplianceSlope
  | GoalPosition
  | MovingSpeed
  | TorqueLimit
  | PresentPosition
  | PresentSpeed
  | PresentLoad
  | PresentVoltage
  | PresentTemperature
  | Registered
  | Moving
  | Lock
  | Punch
deriving DecidableEq

/-- The discriminant of a Register variant, as in the Rust cast
(*self as usize): the 0-based declaration index. -/
def Register.toIdx : Register → Nat
  | Register.ModelNumber => 0
  | Register.FirmwareVersion => 1
  | Register.Id => 2
  | Register.BaudRate => 3
  | Register.ReturnDelayTime => 4
  | Register.CWAngleLimit => 5
  | Register.CCWAngleLimit => 6
  | Register.TemperatureLimit => 7
  | Register.VoltageLimitLow => 8
  | Register.VoltageLimitHigh => 9
  | Register.MaxLoad => 10
  | Register.StatusReturnLevel => 11
  | Register.AlarmLed => 12
  | Register.AlarmShutdown => 13
  | Register.TorqueEnable => 14
  | Register.LedEnable => 15
  | Register.CwComplianceMargin => 16
  | Register.CcwComplianceMargin => 17
  | Register.CwComplianceSlope => 18
  | Register.CcwComplianceSlope => 19
  | Register.GoalPosition => 20
  | Register.MovingSpeed => 21
  | Register.TorqueLimit => 22
  | Register.PresentPosition => 23
  | Register.PresentSpeed => 24
  | Register.PresentLoad => 25
  | Register.PresentVoltage => 26
  | Register.PresentTemperature => 27
  | Register.Registered => 28
  | Register.Moving => 29
  | Register.Lock => 30
  | Register.Punch => 31

/-- REGISTER_INFO static table from src/ax12.rs, entries in source order. -/
def REGISTER_INFO : List RegisterInfo := [
  { address := 0x00, size := Size.HalfWord, access := Access.R, description := "Model number" },
  { address := 0x02, size := Size.Byte, access := Access.R, description := "Firmware version" },
  { address := 0x03, size := Size.Byte, access := Access.RW, description := "Actuator identifier" },
  { address := 0x04, size := Size.Byte, access := Access.RW, description := "Communication baud rate" },
  { address := 0x05, size := Size.Byte, access := Access.RW, description := "Return delay time" },
  { address := 0x06, size := Size.HalfWord, access := Access.RW, description := "Clockwise angle limit" },
  { address := 0x08, size := Size.HalfWord, access := Access.RW, description := "Counterclockwise angle limit" },
  { address := 0x0b, size := Size.Byte, access := Access.RW, description := "Temperature alarm level" },
  { address := 0x0c, size := Size.Byte, access := Access.RW, description := "Low voltage alarm level" },
  { address := 0x0d, size := Size.Byte, access := Access.RW, description := "High voltage alarm level" },
  { address := 0x0e, size := Size.HalfWord, access := Access.RW, description := "Max load alarm level" },
  { address := 0x10, size := Size.Byte, access := Access.RW, description := "Status return level" },
  { address := 0x11, size := Size.Byte, access := Access.RW, description := "LED indication on alarm" },
  { address := 0x12, size := Size.Byte, access := Access.RW, description := "Shutdown on alarm" },
  { address := 0x18, size := Size.Byte, access := Access.RW, description := "Enable torque output" },
  { address := 0x19, size := Size.Byte, access := Access.RW, description := "Enable Led" },
  { address := 0x1a, size := Size.Byte, access := Access.RW, description := "Clockwise compliance margin" },
  { address := 0x1b, size := Size.Byte, access := Access.RW, description := "Counterclockwise compliance margin" },
  { address := 0x1c, size := Size.Byte, access := Access.RW, description := "Clockwise compliance slope" },
  { address := 0x1d, size := Size.Byte, access := Access.RW, description := "Counterclockwise compliance slope" },
  { address := 0x1e, size := Size.HalfWord, access := Access.RW, description := "Goal position" },
  { address := 0x20, size := Size.HalfWord, access := Access.RW, description := "Moving speed" },
  { address := 0x22, size := Size.HalfWord, access := Access.RW, description := "Torque limit" },
  { address := 0x24, size := Size.HalfWord, access := Access.R, description := "Current position" },
  { address := 0x26, size := Size.HalfWord, access := Access.R, description := "Current speed" },
  { address := 0x28, size := Size.HalfWord, access := Access.R, description := "Current load" },
  { address := 0x2a, size := Size.Byte, access := Access.R, description := "Current voltage" },
  { address := 0x2b, size := Size.Byte, access := Access.R, description := "Current temperature" },
  { address := 0x2c, size := Size.Byte, access := Access.R, description := "Instruction registered" },
  { address := 0x2e, size := Size.Byte, access := Access.R, description := "Is Moving" },
  { address := 0x2f, size := Size.Byte, access := Access.RW, description := "EEPROM Lock" },
  { address := 0x30, size := Size.HalfWord, access := Access.RW, description := "Punch value" }]

/-- Register.info from src/ax12.rs; the Rust slice index panic is modelled
as Option.none. -/
def Register.info (r : Register) : Option RegisterInfo :=
  REGISTER_INFO.get? r.toIdx

/-- Register.read_request from src/ax12.rs. -/
def Register.read_request (r : Register) (id : Nat) : Option Packets.Request :=
  match r.info with
  | some i => some (Packets.Request.Read id i.address i.size.len)
  | none => none

/-- Register.parse_read_value from src/ax12.rs: a 1-byte payload is
zero-extended, otherwise a little-endian u16 is read from the start of the
payload; the unwrap panic on a payload shorter than 2 bytes is modelled as
Option.none. -/
def Register.parse_read_value (_r : Register) (status : Packets.Status) : Option Nat :=
  if status.data.length == 1 then
    some (status.data.getD 0 0)
  else
    match status.data with
    | b0 :: b1 :: _ => some (b0 + 256 * b1)
    | _ => none

end Ax12

namespace Bus

/-- One iteration of the serial read in Bus::read_packet of src/bus.rs:
either the port delivers a (possibly empty) chunk of bytes, or the read
returns an I/O error. -/
inductive IoEvent where
  | chunk (bytes : List Nat)
  | ioError

/-- Transport errors, from the Error enum in src/bus.rs (the wrapped OS
error kinds carry no protocol content and are dropped). -/
inductive Error where
  | SerialError
  | ReadError
  | WriteError
  | TransferError
  | DataError (e : Packets.Error)
deriving DecidableEq

/-- Bus::read_packet from src/bus.rs: accumulate incoming chunks until
Status::is_constructible_from holds; a zero-byte read is a TransferError and
an I/O error a ReadError.  Exhausting the modelled event list corresponds to
the Rust loop blocking forever and is Option.none. -/
def read_packet : List IoEvent → List Nat → Option (Except Error (List Nat))
  | [], _ => none
  | IoEvent.ioError :: _, _ => some (Except.error Error.ReadError)
  | IoEvent.chunk bs :: rest, output =>
    if bs.length = 0 then
      some (Except.error Error.TransferError)
    else
      if Packets.Status.is_constructible_from (output ++ bs) then
        some (Except.ok (output ++ bs))
      else
        read_packet rest (output ++ bs)

/-- Bus::exchange from src/bus.rs: write the serialized request (modelled by
the number of bytes the port reports written, or a write I/O error), then
read and parse one status packet. -/
def exchange (writeResult : Except Unit Nat) (reads : List IoEvent)
    (p : Packets.Request) : Option (Except Error Packets.Status) :=
  match writeResult with
  | Except.error _ => some (Except.error Error.WriteError)
  | Except.ok len =>
    if len ≠ p.serialized.length then
      some (Except.error Error.TransferError)
    else
      match read_packet reads [] with
      | none => none
      | some (Except.error e) => some (Except.error e)
      | some (Except.ok data) =>
        match Packets.Status.from_bytes data with
        | Except.ok s => some (Except.ok s)
        | Except.error e => some (Except.error (Error.DataError e))

theorem read_packet_ok (reads : List IoEvent) :
    ∀ acc out, read_packet reads acc = some (Except.ok out) →
      Packets.Status.is_constructible_from out = true := by
  induction reads with
  | nil =>
    intro acc out h
    exact absurd h (by simp [read_packet])
  | cons ev rest ih =>
    intro acc out h
    cases ev with
    | ioError => simp [read_packet] at h
    | chunk bs =>
      by_cases hb : bs.length = 0
      · simp [read_packet, hb] at h
      · by_cases hc : Packets.Status.is_constructible_from (acc ++ bs) = true
        · simp [read_packet, hb, hc] at h
          rw [← h]
          exact hc
        · have hc2 : Packets.Status.is_constructible_from (acc ++ bs) = false := by
            simpa using hc
          simp [read_packet, hb, hc2] at h
          exact ih _ _ h

theorem read_packet_no_data_error (reads : List IoEvent) :
    ∀ acc e, read_packet reads acc ≠ some (Except.error (Error.DataError e)) := by
  induction reads with
  | nil =>
    intro acc e
    simp [read_packet]
  | cons ev rest ih =>
    intro acc e
    cases ev with
    | ioError => simp [read_packet]
    | chunk bs =>
      by_cases hb : bs.length = 0
      · simp [read_packet, hb]
      · by_cases hc : Packets.Status.is_constructible_from (acc ++ bs) = true
        · simp [read_packet, hb, hc]
        · have hc2 : Packets.Status.is_constructible_from (acc ++ bs) = false := by
            simpa using hc
          simp [read_packet, hb, hc2]
          exact ih _ _

end Bus

theorem from_bytes_error_of_constructible (buf : List Nat)
    (hc : Status.is_constructible_from buf = true) (e : Error)
    (h : Status.from_bytes buf = Except.error e) : e = Error.InvalidCrc := by
  rw [from_bytes_of_constructible buf hc] at h
  by_cases hcrc : buf.getD (buf.length - 1) 0 = crc (buf.take (buf.length - 1))
  · rw [if_pos hcrc] at h
    exact absurd h (by simp)
  · rw [if_neg hcrc] at h
    exact (Except.error.inj h).symm

/-- C8 counterexample: on a 3-byte payload parse_read_value does not fail
but silently returns the little-endian value of the first two bytes,
because the cursor read of two bytes succeeds whenever at least two bytes
are present. -/
theorem c8_counterexample :
    Ax12.Register.parse_read_value Ax12.Register.ModelNumber
        { id := 1, error := 0, data := [0x01, 0x02, 0x03] } = some 0x0201
    ∧ Ax12.Register.parse_read_value Ax12.Register.ModelNumber
        { id := 1, error := 0, data := [0x01, 0x02, 0x03] } ≠ none := by
  decide

/-- C8 amended: parse_read_value zero-extends a 1-byte payload, returns the
little-endian 16-bit value of the first two bytes of any payload with at
least 2 bytes (silently ignoring any extra bytes), and fails (panics) only
on an empty payload. -/
theorem c8_decode_amended (r : Ax12.Register) (st : Status) :
    (∀ b, st.data = [b] → Ax12.Register.parse_read_value r st = some b)
    ∧ (∀ b0 b1 rest, st.data = b0 :: b1 :: rest →
      Ax12.Register.parse_read_value r st = some (b0 + 256 * b1))
    ∧ (st.data = [] → Ax12.Register.parse_read_value r st = none) := by
  refine ⟨?_, ?_, ?_⟩
  · intro b hb
    simp [Ax12.Register.parse_read_value, hb]
  · intro b0 b1 rest hb
    simp [Ax12.Register.parse_read_value, hb]
  · intro hb
    simp [Ax12.Register.parse_read_value, hb]

/-- C8 witness: a 1-byte payload 0x2A decodes to 42 and the 2-byte payload
[0x01, 0x02] decodes to 0x0201. -/
theorem c8_witness :
    Ax12.Register.parse_read_value Ax12.Register.PresentTemperature
        { id := 1, error := 0, data := [0x2a] } = some 42
    ∧ Ax12.Register.parse_read_value Ax12.Register.ModelNumber
        { id := 1, error := 0, data := [0x01, 0x02] } = some 0x0201 :=
  ⟨(c8_decode_amended Ax12.Register.PresentTemperature
      { id := 1, error := 0, data := [0x2a] }).1 0x2a rfl,
   (c8_decode_amended Ax12.Register.ModelNumber
      { id := 1, error := 0, data := [0x01, 0x02] }).2.1 0x01 0x02 [] rfl⟩

/-- C9: for every Register variant the discriminant indexes within the
static descriptor table, so the lookup is total, and read_request builds a
Read whose id is the given id, whose address is the descriptor address and
whose length is the descriptor width (1 for Byte, 2 for HalfWord). -/
theorem c9_register_table (r : Ax12.Register) (id : Nat) :
    r.toIdx < Ax12.REGISTER_INFO.length
    ∧ (∃ d, Ax12.Register.info r = some d ∧
      Ax12.Register.read_request r id =
        some (Request.Read id d.address d.size.len))
    ∧ Ax12.Size.Byte.len = 1 ∧ Ax12.Size.HalfWord.len = 2 := by
  cases r <;> exact ⟨by decide, ⟨_, rfl, rfl⟩, rfl, rfl⟩

/-- C10: whenever the exchange of src/bus.rs surfaces a DataError, the
wrapped codec error is InvalidCrc: the accumulation loop hands over a buffer
only once is_constructible_from holds, and on such a buffer the
PacketTooShort branch of from_bytes is unreachable. -/
theorem c10_data_error_invalid_crc (w : Except Unit Nat)
    (reads : List Bus.IoEvent) (p : Request) (e : Error)
    (h : Bus.exchange w reads p =
      some (Except.error (Bus.Error.DataError e))) :
    e = Error.InvalidCrc := by
  unfold Bus.exchange at h
  split at h
  · exact absurd h (by simp)
  · split at h
    · exact absurd h (by simp)
    · split at h
      · exact absurd h (by simp)
      case _ e2 heq =>
        have he2 : e2 = Bus.Error.DataError e := Except.error.inj (Option.some.inj h)
        rw [he2] at heq
        exact absurd heq (Bus.read_packet_no_data_error reads [] e)
      case _ data heq =>
        have hconstructible := Bus.read_packet_ok reads [] data heq
        split at h
        · exact absurd h (by simp)
        case _ e2 hfb =>
          have he2 : e2 = e :=
            Bus.Error.DataError.inj (Except.error.inj (Option.some.inj h))
          rw [← he2]
          exact from_bytes_error_of_constructible data hconstructible e2 hfb

/-- C10 witness: a complete six-byte frame with a corrupted final byte makes
the exchange surface DataError InvalidCrc. -/
theorem c10_witness : Error.InvalidCrc = Error.InvalidCrc :=
  c10_data_error_invalid_crc (Except.ok 6)
    [Bus.IoEvent.chunk [0xff, 0xff, 0x01, 0x02, 0x24, 0xff]]
    (Request.Ping 0x01) Error.InvalidCrc (by rfl)
